/-
Verification of the AutoConsolidado scripts (autocompletar_consolidado.py,
autocompletar_consolidado_v0.2.py, autocompletar_consolidado_v1.0.py).

The three scripts consolidate per-entity Excel files into a master workbook:
  - V0  : in-place value copy (autocompletar_consolidado.py),
  - V02 : memory-bounded streaming rebuild (autocompletar_consolidado_v0.2.py),
  - V10 : in-place external-link formula writing (autocompletar_consolidado_v1.0.py).

The embedding below translates the row/sheet processing logic of each script.
Cell values are modelled by `Val`; the file system visible to a run is a
function from paths to `FileOutcome`; a loaded per-entity workbook is observed
only through cell lookups on its active sheet (`SrcWb`).
-/
import Mathlib

namespace AutoConsolidado

/-- A spreadsheet cell value as delivered by openpyxl: None, a string, an
integer, a float (modelled as a rational number), or a boolean. -/
inductive Val where
  | none : Val
  | str : String → Val
  | int : Int → Val
  | float : ℚ → Val
  | bool : Bool → Val
deriving DecidableEq

/-- Python truthiness of a cell value, as used by the scripts in
`if not codigo` and `if codigo_cell.value`: None, the empty string, 0, 0.0
and False are falsy, everything else is truthy. -/
def truthy : Val → Bool
  | Val.none => false
  | Val.str s => decide (s ≠ "")
  | Val.int n => decide (n ≠ 0)
  | Val.float q => decide (q ≠ 0)
  | Val.bool b => b

/-- Python `str()` of a cell value (`str(codigo)` in the scripts). Floats are
rendered through the rational ToString instance; no claim depends on the exact
rendering of a float or an int. -/
def pyStr : Val → String
  | Val.none => "None"
  | Val.str s => s
  | Val.int n => toString n
  | Val.float q => toString q
  | Val.bool b => if b then "True" else "False"

/-- Python `str.strip()`: remove leading and trailing whitespace. -/
def pyStrip (s : String) : String :=
  String.mk (((s.data.dropWhile Char.isWhitespace).reverse.dropWhile
    Char.isWhitespace).reverse)

/-- openpyxl.utils.column_index_from_string: column letters to the 1-based
column index (base-26, so F maps to 6 and M maps to 13). -/
def column_index_from_string (s : String) : Nat :=
  s.data.foldl (fun acc c => 26 * acc + (c.toNat - 64)) 0

/-- A loaded per-entity workbook, observed only by looking up a cell
reference on its active sheet (`wb.active[celda].value`); the lookup itself
may raise, which the scripts catch. -/
def SrcWb := String → Except String Val

/-- Outcome of consulting the file system at a path for a per-entity file:
the file may be absent (`os.path.isfile` false), present but raising on
`openpyxl.load_workbook`, or present and loaded. -/
inductive FileOutcome where
  | absent : FileOutcome
  | readError : String → FileOutcome
  | ok : SrcWb → FileOutcome

/-- The file system visible to a run. -/
def FS := String → FileOutcome

/-- `os.path.isfile`: true exactly when the path is not absent. -/
def isfile (fs : FS) (p : String) : Bool :=
  match fs p with
  | FileOutcome.absent => false
  | _ => true

/-- Path separator. The scripts target Windows (V10 hardcodes the directory
C:\presupuestos), so `os.sep` is a backslash. -/
def osSep : String := "\\"

/-- `os.path.join(base, name)` for the shapes the scripts build: a base
directory joined with a plain file name. -/
def joinPath (a b : String) : String := a ++ osSep ++ b

/-- The per-row status the scripts print: Copiado, Error al leer, Archivo no
encontrado, the implicit skip/header passthrough of the streaming script, and
the two formula statuses of V10. -/
inductive RowStatus where
  | copiado : RowStatus
  | errorAlLeer : String → RowStatus
  | noEncontrado : RowStatus
  | omitido : RowStatus
  | encabezado : RowStatus
  | formulaAnadida : RowStatus
  | formulaAnadidaSinArchivo : RowStatus
deriving DecidableEq

/-- `cargar_valor` of V0 (identical in V10, and `cargar_valor_desde_origen`
in V02): read `wb.active[celda].value`, returning None on any exception. -/
def cargar_valor (wb : SrcWb) (celda : String) : Val :=
  match wb celda with
  | Except.ok v => v
  | Except.error _ => Val.none

/-- Target sheet names, shared by all three scripts (HOJAS_OBJETIVO). -/
def HOJAS_OBJETIVO : List String := ["EDU", "HOSP", "EMPRESA"]

namespace V0

/-- Column D holds the lookup code (COL_CODIGO). -/
def COL_CODIGO : Nat := 4

/-- COLUMNAS_DESTINO of autocompletar_consolidado.py: destination column
letter in the master, source cell reference in the per-entity file, in the
dictionary's insertion order. -/
def COLUMNAS_DESTINO : List (String × String) :=
  [("F", "N21"), ("G", "N25"), ("I", "N49"), ("K", "N153"), ("M", "N161")]

/-- First data row (the source calls this constant FILA_INICIO). -/
def FILA_INICIO_DATOS : Nat := 6

/-- An in-place worksheet: the unbounded openpyxl cell grid, 1-based
(row, column) to value; absent cells read as None. -/
def Ws := Nat → Nat → Val

/-- `ws.cell(row, column, value)`: functional update of one grid cell. -/
def setCell (ws : Ws) (r c : Nat) (v : Val) : Ws :=
  fun r2 c2 => if r2 = r ∧ c2 = c then v else ws r2 c2

/-- The inner for-loop of procesar_hoja: for every destination column, copy
the value at the configured source cell of the loaded per-entity file into
the current row. -/
def escribirDestinos (ws : Ws) (fila : Nat) (wb : SrcWb) : Ws :=
  COLUMNAS_DESTINO.foldl
    (fun acc par =>
      setCell acc fila (column_index_from_string par.1) (cargar_valor wb par.2))
    ws

/-- One iteration of the while-loop of procesar_hoja. Returns none when the
code cell is falsy (the `break`); otherwise the updated sheet and the status
the script prints for the row. -/
def paso (fs : FS) (ruta_base : String) (ws : Ws) (fila : Nat) :
    Option (Ws × RowStatus) :=
  let codigo := ws fila COL_CODIGO
  if truthy codigo then
    let codigoStr := pyStrip (pyStr codigo)
    let ruta_archivo := joinPath ruta_base (codigoStr ++ ".xlsx")
    match fs ruta_archivo with
    | FileOutcome.absent => some (ws, RowStatus.noEncontrado)
    | FileOutcome.readError m => some (ws, RowStatus.errorAlLeer m)
    | FileOutcome.ok wb => some (escribirDestinos ws fila wb, RowStatus.copiado)
  else none

/-- procesar_hoja of autocompletar_consolidado.py: run `paso` from row
`fila` upward until the code cell is falsy. The fuel argument bounds the
traversal (any real sheet is finite); it only matters that it is large
enough, which every theorem below quantifies over. -/
def procesar_hoja (fs : FS) (ruta_base : String) : Nat → Ws → Nat → Ws
  | 0, ws, _ => ws
  | fuel + 1, ws, fila =>
    match paso fs ruta_base ws fila with
    | Option.none => ws
    | Option.some (ws2, _) => procesar_hoja fs ruta_base fuel ws2 (fila + 1)

/-- Process exit code of main in autocompletar_consolidado.py: the missing
master branch, the unreadable master branch and the failed save branch all
end in a plain `return` (or fall off main), so every path exits 0. -/
def mainExitCode (masterExiste cargaOk guardadoOk : Bool) : Nat :=
  if masterExiste then
    if cargaOk then
      if guardadoOk then 0 else 0
    else 0
  else 0

end V0

namespace V02

/-- Column D holds the lookup code (COL_CODIGO). -/
def COL_CODIGO : Nat := 4

/-- COLUMNAS_DESTINO of autocompletar_consolidado_v0.2.py. -/
def COLUMNAS_DESTINO : List (String × String) :=
  [("F", "N21"), ("G", "N25"), ("I", "N49"), ("K", "N153"), ("M", "N161")]

/-- COL_INDICES_DESTINO: the same mapping keyed by the 1-based numeric
column index, in the same order. -/
def COL_INDICES_DESTINO : List (Nat × String) :=
  COLUMNAS_DESTINO.map (fun par => (column_index_from_string par.1, par.2))

/-- First data row (FILA_INICIO_DATOS, 1-indexed). -/
def FILA_INICIO_DATOS : Nat := 6

/-- cargar_valor_desde_origen: identical to cargar_valor of V0. -/
def cargar_valor_desde_origen (wb : SrcWb) (celda_ref : String) : Val :=
  cargar_valor wb celda_ref

/-- The pad-then-assign step of the streaming script:
`while len(current_row_values) < col_index: current_row_values.append(None)`
followed by `current_row_values[col_index - 1] = valor`. -/
def asignarConRelleno (row : List Val) (col_index : Nat) (v : Val) : List Val :=
  (row ++ List.replicate (col_index - row.length) Val.none).set (col_index - 1) v

/-- The inner for-loop over COL_INDICES_DESTINO for one row whose per-entity
file loaded: pad and assign every destination column. -/
def actualizarFila (wb : SrcWb) (row : List Val) : List Val :=
  COL_INDICES_DESTINO.foldl
    (fun acc par => asignarConRelleno acc par.1 (cargar_valor_desde_origen wb par.2))
    row

/-- One source row of the streaming loop, at 0-based index `r_idx`. Header
rows (1-based row number below FILA_INICIO_DATOS) are appended verbatim. A
data row first indexes `row_data[COL_CODIGO - 1]`, which raises IndexError on
a row shorter than COL_CODIGO (the error propagates to the critical handler,
which exits the run). The code string is the stripped str() of the cell value
when that value is truthy, else the empty string; an empty code appends the
row unchanged without consulting the file system. -/
def paso (fs : FS) (ruta_base : String) (r_idx : Nat) (row : List Val) :
    Except String (List Val × RowStatus) :=
  if r_idx + 1 < FILA_INICIO_DATOS then Except.ok (row, RowStatus.encabezado)
  else
    match row[COL_CODIGO - 1]? with
    | Option.none => Except.error "IndexError: list index out of range"
    | Option.some codigoVal =>
      let codigo := if truthy codigoVal then pyStrip (pyStr codigoVal) else ""
      if codigo = "" then Except.ok (row, RowStatus.omitido)
      else
        let ruta_archivo_origen := joinPath ruta_base (codigo ++ ".xlsx")
        match fs ruta_archivo_origen with
        | FileOutcome.absent => Except.ok (row, RowStatus.noEncontrado)
        | FileOutcome.readError m => Except.ok (row, RowStatus.errorAlLeer m)
        | FileOutcome.ok wb => Except.ok (actualizarFila wb row, RowStatus.copiado)

/-- The per-sheet streaming loop, appending the processed form of each source
row to the output sheet in order; an exception aborts the sheet (and with it
the run, which then never saves the output). -/
def procesarHojaAux (fs : FS) (ruta_base : String) :
    Nat → List (List Val) → Except String (List (List Val))
  | _, [] => Except.ok []
  | i, row :: rest =>
    match paso fs ruta_base i row with
    | Except.error e => Except.error e
    | Except.ok (row2, _) =>
      match procesarHojaAux fs ruta_base (i + 1) rest with
      | Except.error e => Except.error e
      | Except.ok out => Except.ok (row2 :: out)

/-- One target sheet processed by the streaming script, source rows iterated
from 0-based index 0 (`iter_rows(min_row=1)`). -/
def procesar_hoja (fs : FS) (ruta_base : String) (rows : List (List Val)) :
    Except String (List (List Val)) :=
  procesarHojaAux fs ruta_base 0 rows

/-- The master workbook as read in read-only mode: named sheets in order,
each a list of rows. -/
def MasterWb := List (String × List (List Val))

/-- The for-loop of main over HOJAS_OBJETIVO: sheets absent from the master
are skipped with a message; each present sheet is streamed; a raised
exception aborts the whole run. -/
def procesarObjetivos (fs : FS) (ruta_base : String) (m : MasterWb) :
    List String → Except String (List (String × List (List Val)))
  | [] => Except.ok []
  | nombre :: rest =>
    match m.lookup nombre with
    | Option.none => procesarObjetivos fs ruta_base m rest
    | Option.some rows =>
      match procesar_hoja fs ruta_base rows with
      | Except.error e => Except.error e
      | Except.ok out =>
        match procesarObjetivos fs ruta_base m rest with
        | Except.error e => Except.error e
        | Except.ok acc => Except.ok ((nombre, out) :: acc)

/-- Process exit code of main in autocompletar_consolidado_v0.2.py: a missing
master returns normally (exit 0); a failure to load the master or any
exception during processing hits the critical handler (`sys.exit(1)`); a
failed save exits 1; otherwise the run ends normally with 0. -/
def mainExitCode (masterExiste : Bool) (masterCarga : Except String MasterWb)
    (fs : FS) (ruta_base : String) (guardadoOk : Bool) : Nat :=
  if masterExiste then
    match masterCarga with
    | Except.error _ => 1
    | Except.ok m =>
      match procesarObjetivos fs ruta_base m HOJAS_OBJETIVO with
      | Except.error _ => 1
      | Except.ok _ => if guardadoOk then 0 else 1
  else 0

end V02

namespace V10

/-- Column D holds the lookup code (COL_CODIGO). -/
def COL_CODIGO : Nat := 4

/-- COLUMNAS_DESTINO of autocompletar_consolidado_v1.0.py: the source cell
references carry dollar anchors to make them absolute. -/
def COLUMNAS_DESTINO : List (String × String) :=
  [("F", "$N$21"), ("G", "$N$25"), ("I", "$N$49"), ("K", "$N$153"),
   ("M", "$N$161")]

/-- First data row (the source calls this constant FILA_INICIO). -/
def FILA_INICIO_DATOS : Nat := 6

/-- Fixed sheet name assumed inside every per-entity file. -/
def NOMBRE_HOJA_ORIGEN_FIJO : String := "Hoja1"

/-- Fixed absolute directory holding the per-entity files. -/
def RUTA_ARCHIVOS_ORIGEN : String := "C:\\presupuestos"

/-- Python `str.endswith`, used on the directory and the separator. -/
def terminaCon (s suf : String) : Bool := suf.data.isSuffixOf s.data

/-- The trailing-separator normalization of procesar_hoja: append os.sep to
a nonempty directory that does not already end with it. -/
def path_para_formula (directorio : String) : String :=
  if directorio ≠ "" && !terminaCon directorio osSep
  then directorio ++ osSep else directorio

/-- The external-reference formula string of procesar_hoja:
an equals sign, a quoted directory-with-[filename]-and-sheet prefix, an
exclamation mark, and the (absolute) source cell reference. -/
def formula_enlace (path base celda_ref : String) : String :=
  "='" ++ path ++ "[" ++ base ++ "]" ++ NOMBRE_HOJA_ORIGEN_FIJO ++ "'!"
    ++ celda_ref

/-- The inner for-loop of procesar_hoja in V10: write the external-reference
formula for every destination column into the current row. -/
def escribirFormulas (ws : V0.Ws) (fila : Nat) (path base : String) : V0.Ws :=
  COLUMNAS_DESTINO.foldl
    (fun acc par =>
      V0.setCell acc fila (column_index_from_string par.1)
        (Val.str (formula_enlace path base par.2)))
    ws

/-- One iteration of the while-loop of procesar_hoja in V10. The absolute
path is RUTA_ARCHIVOS_ORIGEN joined with `<code>.xlsx`; since the fixed root
has no trailing separator and the file name contains no separator,
os.path.dirname of the joined path is the root and os.path.basename is the
file name. The formula is written into every destination column whether or
not the file exists; existence only selects the status message. -/
def paso (fs : FS) (ws : V0.Ws) (fila : Nat) : Option (V0.Ws × RowStatus) :=
  let codigo := ws fila COL_CODIGO
  if truthy codigo then
    let codigoStr := pyStrip (pyStr codigo)
    let nombre_archivo_codigo := codigoStr ++ ".xlsx"
    let ruta_absoluta := joinPath RUTA_ARCHIVOS_ORIGEN nombre_archivo_codigo
    let directorio_origen := RUTA_ARCHIVOS_ORIGEN
    let nombre_archivo_base := nombre_archivo_codigo
    let path := path_para_formula directorio_origen
    some (escribirFormulas ws fila path nombre_archivo_base,
      if isfile fs ruta_absoluta then RowStatus.formulaAnadida
      else RowStatus.formulaAnadidaSinArchivo)
  else none

/-- procesar_hoja of autocompletar_consolidado_v1.0.py: run `paso` from row
`fila` upward until the code cell is falsy (fueled as in V0). -/
def procesar_hoja (fs : FS) : Nat → V0.Ws → Nat → V0.Ws
  | 0, ws, _ => ws
  | fuel + 1, ws, fila =>
    match paso fs ws fila with
    | Option.none => ws
    | Option.some (ws2, _) => procesar_hoja fs fuel ws2 (fila + 1)

/-- Process exit code of main in autocompletar_consolidado_v1.0.py: same
structure as V0, every path ends in a plain `return` or falls off main, so
every path exits 0. -/
def mainExitCode (masterExiste cargaOk guardadoOk : Bool) : Nat :=
  if masterExiste then
    if cargaOk then
      if guardadoOk then 0 else 0
    else 0
  else 0

end V10

/-- An Excel cell reference in fully absolute form: a dollar sign, one or
more column letters, a dollar sign, one or more digits (e.g. $N$21). -/
def esRefAbsoluta (s : String) : Bool :=
  match s.data with
  | [] => false
  | c0 :: rest =>
    let col := rest.takeWhile (fun ch => ch.isUpper)
    let resto := rest.dropWhile (fun ch => ch.isUpper)
    c0 == '$' && !col.isEmpty &&
      (match resto with
       | [] => false
       | c1 :: ds => c1 == '$' && !ds.isEmpty && ds.all (fun ch => ch.isDigit))

/- Concrete fixtures used by the witness theorems. -/

/-- A file system with no per-entity files at all. -/
def fsVacio : FS := fun _ => FileOutcome.absent

/-- A per-entity workbook whose lookup returns the cell reference itself,
tagged as a string, so distinct source cells yield distinct values. -/
def wbEjemplo : SrcWb := fun celda => Except.ok (Val.str celda)

/-- A file system on which every path loads `wbEjemplo`. -/
def fsEjemplo : FS := fun _ => FileOutcome.ok wbEjemplo

/-- A file system on which every file exists but fails to load. -/
def fsLecturaRota : FS := fun _ => FileOutcome.readError "archivo corrupto"

/-- A file system with one readable file (A100.xlsx), one corrupt file
(B200.xlsx) and nothing else, relative to the base directory "". -/
def fsMixto : FS := fun p =>
  if p = joinPath "" "A100.xlsx" then FileOutcome.ok wbEjemplo
  else if p = joinPath "" "B200.xlsx" then FileOutcome.readError "archivo corrupto"
  else FileOutcome.absent

/-- An in-place master sheet whose row 6 has code "A100" in column D. -/
def wsEjemplo : V0.Ws := fun fila col =>
  if fila = 6 ∧ col = 4 then Val.str "A100" else Val.none

/-- An in-place master sheet whose row 6 has a whitespace-only code cell. -/
def wsEspacios : V0.Ws := fun fila col =>
  if fila = 6 ∧ col = 4 then Val.str "   " else Val.none

/-- An entirely empty in-place master sheet. -/
def wsVacia : V0.Ws := fun _ _ => Val.none

/-- A streamed data row with code "A100" in column D. -/
def filaEjemplo : List Val := [Val.none, Val.none, Val.none, Val.str "A100"]

/-- A streamed data row with an empty code cell in column D. -/
def filaSinCodigo : List Val := [Val.none, Val.none, Val.none, Val.none]

/-- A streamed data row with a whitespace-only code cell in column D. -/
def filaEspacios : List Val := [Val.none, Val.none, Val.none, Val.str "   "]

/-- A streamed source sheet exercising every row category: five header rows,
a code whose file loads, an empty-code row, a code whose file is corrupt, and
a code whose file is absent. -/
def hojaEjemplo : List (List Val) :=
  [[], [Val.str "titulo"], [], [], [],
   filaEjemplo,
   filaSinCodigo,
   [Val.none, Val.none, Val.none, Val.str "B200"],
   [Val.none, Val.none, Val.none, Val.str "C300"]]

/- Helper lemmas about the V0 in-place grid. -/

theorem setCell_mismo (ws : V0.Ws) (fila c : Nat) (v : Val) :
    V0.setCell ws fila c v fila c = v := by
  simp [V0.setCell]

theorem setCell_otro (ws : V0.Ws) (fila c c2 : Nat) (v : Val) (h : c ≠ c2) :
    V0.setCell ws fila c2 v fila c = ws fila c := by
  simp [V0.setCell, h]

theorem escribirDestinos_eq (ws : V0.Ws) (fila : Nat) (wb : SrcWb) :
    V0.escribirDestinos ws fila wb =
      V0.setCell (V0.setCell (V0.setCell (V0.setCell (V0.setCell ws
        fila 6 (cargar_valor wb "N21"))
        fila 7 (cargar_valor wb "N25"))
        fila 9 (cargar_valor wb "N49"))
        fila 11 (cargar_valor wb "N153"))
        fila 13 (cargar_valor wb "N161") := rfl

theorem escribirFormulas_eq (ws : V0.Ws) (fila : Nat) (path base : String) :
    V10.escribirFormulas ws fila path base =
      V0.setCell (V0.setCell (V0.setCell (V0.setCell (V0.setCell ws
        fila 6 (Val.str (V10.formula_enlace path base "$N$21")))
        fila 7 (Val.str (V10.formula_enlace path base "$N$25")))
        fila 9 (Val.str (V10.formula_enlace path base "$N$49")))
        fila 11 (Val.str (V10.formula_enlace path base "$N$153")))
        fila 13 (Val.str (V10.formula_enlace path base "$N$161")) := rfl

theorem escribirFormulas_lee (ws : V0.Ws) (fila : Nat) (path base : String) :
    V10.escribirFormulas ws fila path base fila 6 =
      Val.str (V10.formula_enlace path base "$N$21") ∧
    V10.escribirFormulas ws fila path base fila 7 =
      Val.str (V10.formula_enlace path base "$N$25") ∧
    V10.escribirFormulas ws fila path base fila 9 =
      Val.str (V10.formula_enlace path base "$N$49") ∧
    V10.escribirFormulas ws fila path base fila 11 =
      Val.str (V10.formula_enlace path base "$N$153") ∧
    V10.escribirFormulas ws fila path base fila 13 =
      Val.str (V10.formula_enlace path base "$N$161") := by
  rw [escribirFormulas_eq]
  refine ⟨?_, ?_, ?_, ?_, ?_⟩ <;>
    simp [setCell_mismo, setCell_otro, V0.setCell]

theorem escribirDestinos_lee (ws : V0.Ws) (fila : Nat) (wb : SrcWb) :
    V0.escribirDestinos ws fila wb fila 6 = cargar_valor wb "N21" ∧
    V0.escribirDestinos ws fila wb fila 7 = cargar_valor wb "N25" ∧
    V0.escribirDestinos ws fila wb fila 9 = cargar_valor wb "N49" ∧
    V0.escribirDestinos ws fila wb fila 11 = cargar_valor wb "N153" ∧
    V0.escribirDestinos ws fila wb fila 13 = cargar_valor wb "N161" := by
  rw [escribirDestinos_eq]
  refine ⟨?_, ?_, ?_, ?_, ?_⟩ <;>
    simp [setCell_mismo, setCell_otro, V0.setCell]

/- Helper lemmas about the V02 pad-then-assign step. -/

theorem asignar_length (row : List Val) (n : Nat) (v : Val) :
    (V02.asignarConRelleno row n v).length = max row.length n := by
  unfold V02.asignarConRelleno
  rw [List.length_set, List.length_append, List.length_replicate]
  omega

theorem asignar_lee_mismo (row : List Val) (n : Nat) (v : Val) (hn : 1 ≤ n) :
    (V02.asignarConRelleno row n v)[n - 1]? = some v := by
  unfold V02.asignarConRelleno
  have h : n - 1 < (row ++ List.replicate (n - row.length) Val.none).length := by
    rw [List.length_append, List.length_replicate]
    omega
  rw [List.getElem?_set, if_pos rfl, if_pos h]

theorem asignar_lee_otro (row : List Val) (n : Nat) (v : Val) (m : Nat)
    (hm : m < row.length) (hne : m ≠ n - 1) :
    (V02.asignarConRelleno row n v)[m]? = row[m]? := by
  unfold V02.asignarConRelleno
  rw [List.getElem?_set, if_neg (fun h => hne h.symm), List.getElem?_append,
    if_pos hm]

theorem actualizarFila_eq (wb : SrcWb) (row : List Val) :
    V02.actualizarFila wb row =
      V02.asignarConRelleno (V02.asignarConRelleno (V02.asignarConRelleno
        (V02.asignarConRelleno (V02.asignarConRelleno row
          6 (V02.cargar_valor_desde_origen wb "N21"))
          7 (V02.cargar_valor_desde_origen wb "N25"))
          9 (V02.cargar_valor_desde_origen wb "N49"))
          11 (V02.cargar_valor_desde_origen wb "N153"))
          13 (V02.cargar_valor_desde_origen wb "N161") := rfl

theorem actualizarFila_spec (wb : SrcWb) (row : List Val) :
    (V02.actualizarFila wb row).length = max row.length 13 ∧
    (V02.actualizarFila wb row)[5]? =
      some (V02.cargar_valor_desde_origen wb "N21") ∧
    (V02.actualizarFila wb row)[6]? =
      some (V02.cargar_valor_desde_origen wb "N25") ∧
    (V02.actualizarFila wb row)[8]? =
      some (V02.cargar_valor_desde_origen wb "N49") ∧
    (V02.actualizarFila wb row)[10]? =
      some (V02.cargar_valor_desde_origen wb "N153") ∧
    (V02.actualizarFila wb row)[12]? =
      some (V02.cargar_valor_desde_origen wb "N161") := by
  rw [actualizarFila_eq]
  set v21 := V02.cargar_valor_desde_origen wb "N21"
  set v25 := V02.cargar_valor_desde_origen wb "N25"
  set v49 := V02.cargar_valor_desde_origen wb "N49"
  set v153 := V02.cargar_valor_desde_origen wb "N153"
  set v161 := V02.cargar_valor_desde_origen wb "N161"
  set r1 := V02.asignarConRelleno row 6 v21 with hr1
  set r2 := V02.asignarConRelleno r1 7 v25 with hr2
  set r3 := V02.asignarConRelleno r2 9 v49 with hr3
  set r4 := V02.asignarConRelleno r3 11 v153 with hr4
  have hL1 : r1.length = max row.length 6 := asignar_length ..
  have hL2 : r2.length = max row.length 7 := by
    rw [hr2, asignar_length, hL1]
    omega
  have hL3 : r3.length = max row.length 9 := by
    rw [hr3, asignar_length, hL2]
    omega
  have hL4 : r4.length = max row.length 11 := by
    rw [hr4, asignar_length, hL3]
    omega
  refine ⟨?_, ?_, ?_, ?_, ?_, ?_⟩
  · rw [asignar_length, hL4]
    omega
  · rw [asignar_lee_otro r4 13 v161 5 (by omega) (by omega),
      hr4, asignar_lee_otro r3 11 v153 5 (by omega) (by omega),
      hr3, asignar_lee_otro r2 9 v49 5 (by omega) (by omega),
      hr2, asignar_lee_otro r1 7 v25 5 (by omega) (by omega),
      hr1]
    exact asignar_lee_mismo row 6 v21 (by omega)
  · rw [asignar_lee_otro r4 13 v161 6 (by omega) (by omega),
      hr4, asignar_lee_otro r3 11 v153 6 (by omega) (by omega),
      hr3, asignar_lee_otro r2 9 v49 6 (by omega) (by omega),
      hr2]
    exact asignar_lee_mismo r1 7 v25 (by omega)
  · rw [asignar_lee_otro r4 13 v161 8 (by omega) (by omega),
      hr4, asignar_lee_otro r3 11 v153 8 (by omega) (by omega),
      hr3]
    exact asignar_lee_mismo r2 9 v49 (by omega)
  · rw [asignar_lee_otro r4 13 v161 10 (by omega) (by omega),
      hr4]
    exact asignar_lee_mismo r3 11 v153 (by omega)
  · exact asignar_lee_mismo r4 13 v161 (by omega)

/- Helper lemmas about the V0 and V10 traversal loops. -/

theorem procesar_hoja_v0_alto (fs : FS) (rb : String) (fuel : Nat) (ws : V0.Ws)
    (fila : Nat) (h : truthy (ws fila V0.COL_CODIGO) = false) :
    V0.procesar_hoja fs rb fuel ws fila = ws := by
  cases fuel with
  | zero => rfl
  | succ n => simp [V0.procesar_hoja, V0.paso, h]

theorem procesar_hoja_v0_paso (fs : FS) (rb : String) (fuel : Nat) (ws : V0.Ws)
    (fila : Nat) (ws2 : V0.Ws) (st : RowStatus)
    (h : V0.paso fs rb ws fila = some (ws2, st)) :
    V0.procesar_hoja fs rb (fuel + 1) ws fila =
      V0.procesar_hoja fs rb fuel ws2 (fila + 1) := by
  simp [V0.procesar_hoja, h]

theorem procesar_hoja_v10_alto (fs : FS) (fuel : Nat) (ws : V0.Ws)
    (fila : Nat) (h : truthy (ws fila V10.COL_CODIGO) = false) :
    V10.procesar_hoja fs fuel ws fila = ws := by
  cases fuel with
  | zero => rfl
  | succ n => simp [V10.procesar_hoja, V10.paso, h]

/- Helper lemmas about the V02 streaming loop. -/

theorem paso_v02_ok (fs : FS) (rb : String) (i : Nat) (row : List Val)
    (h : V02.FILA_INICIO_DATOS ≤ i + 1 → V02.COL_CODIGO ≤ row.length) :
    ∃ pr, V02.paso fs rb i row = Except.ok pr := by
  unfold V02.paso
  by_cases hi : i + 1 < V02.FILA_INICIO_DATOS
  · rw [if_pos hi]
    exact ⟨_, rfl⟩
  · rw [if_neg hi]
    have h4 : V02.COL_CODIGO - 1 < row.length := by
      have h5 := h (by omega)
      simp only [V02.COL_CODIGO] at h5 ⊢
      omega
    rw [List.getElem?_eq_getElem h4]
    dsimp only
    by_cases hc : (if truthy row[V02.COL_CODIGO - 1] then
        pyStrip (pyStr row[V02.COL_CODIGO - 1]) else "") = ""
    · rw [if_pos hc]
      exact ⟨_, rfl⟩
    · rw [if_neg hc]
      cases hfs : fs (joinPath rb ((if truthy row[V02.COL_CODIGO - 1] then
          pyStrip (pyStr row[V02.COL_CODIGO - 1]) else "") ++ ".xlsx")) with
      | absent => exact ⟨_, rfl⟩
      | readError m => exact ⟨_, rfl⟩
      | ok wb => exact ⟨_, rfl⟩

theorem procesarHojaAux_spec (fs : FS) (rb : String) :
    ∀ (rows : List (List Val)) (i0 : Nat),
      (∀ j (hj : j < rows.length), V02.FILA_INICIO_DATOS ≤ i0 + j + 1 →
        V02.COL_CODIGO ≤ rows[j].length) →
      ∃ out, V02.procesarHojaAux fs rb i0 rows = Except.ok out ∧
        out.length = rows.length ∧
        ∀ j (h1 : j < rows.length) (h2 : j < out.length),
          ∃ st, V02.paso fs rb (i0 + j) rows[j] = Except.ok (out[j], st)
  | [], i0, _ => by
    refine ⟨[], rfl, rfl, ?_⟩
    intro j h1
    exact absurd h1 (by simp)
  | row :: rest, i0, h => by
    obtain ⟨⟨row2, st⟩, hpaso⟩ := paso_v02_ok fs rb i0 row (by
      intro hge
      have h0 := h 0 (by simp)
      simpa using h0 (by omega))
    obtain ⟨out, hout, hlen, hget⟩ := procesarHojaAux_spec fs rb rest (i0 + 1)
      (by
        intro j hj hge
        have hj1 := h (j + 1) (by simpa using Nat.succ_lt_succ hj)
        simp only [List.getElem_cons_succ] at hj1
        exact hj1 (by omega))
    refine ⟨row2 :: out, ?_, by simpa using hlen, ?_⟩
    · unfold V02.procesarHojaAux
      rw [hpaso, hout]
    · intro j h1 h2
      cases j with
      | zero => exact ⟨st, by simpa using hpaso⟩
      | succ k =>
        have hk1 : k < rest.length := by simpa using h1
        have hk2 : k < out.length := by simpa using h2
        obtain ⟨st2, hst2⟩ := hget k hk1 hk2
        refine ⟨st2, ?_⟩
        simpa [Nat.add_assoc, Nat.add_comm 1 k] using hst2

/-- C1: for every data row whose column-D code is non-empty (truthy, with
trimmed string form `c`) and whose per-entity file `c`.xlsx exists and loads,
processing the row writes into each destination column (F=6, G=7, I=9, K=11,
M=13) exactly the value read from the corresponding configured source cell
(N21, N25, N49, N153, N161) of that file, both in the in-place mode (V0) and
in the streaming mode (V02). -/
theorem c1_extraccion_correcta (fs : FS) (ruta_base c : String) (wb : SrcWb)
    (ws : V0.Ws) (fila : Nat) (r_idx : Nat) (row : List Val) (v : Val)
    (hc : c ≠ "")
    (hf : fs (joinPath ruta_base (c ++ ".xlsx")) = FileOutcome.ok wb)
    (ht0 : truthy (ws fila V0.COL_CODIGO) = true)
    (hs0 : pyStrip (pyStr (ws fila V0.COL_CODIGO)) = c)
    (hi : V02.FILA_INICIO_DATOS ≤ r_idx + 1)
    (hv : row[V02.COL_CODIGO - 1]? = some v)
    (ht2 : truthy v = true)
    (hs2 : pyStrip (pyStr v) = c) :
    V0.paso fs ruta_base ws fila =
      some (V0.escribirDestinos ws fila wb, RowStatus.copiado) ∧
    V0.escribirDestinos ws fila wb fila 6 = cargar_valor wb "N21" ∧
    V0.escribirDestinos ws fila wb fila 7 = cargar_valor wb "N25" ∧
    V0.escribirDestinos ws fila wb fila 9 = cargar_valor wb "N49" ∧
    V0.escribirDestinos ws fila wb fila 11 = cargar_valor wb "N153" ∧
    V0.escribirDestinos ws fila wb fila 13 = cargar_valor wb "N161" ∧
    V02.paso fs ruta_base r_idx row =
      Except.ok (V02.actualizarFila wb row, RowStatus.copiado) ∧
    (V02.actualizarFila wb row)[5]? =
      some (V02.cargar_valor_desde_origen wb "N21") ∧
    (V02.actualizarFila wb row)[6]? =
      some (V02.cargar_valor_desde_origen wb "N25") ∧
    (V02.actualizarFila wb row)[8]? =
      some (V02.cargar_valor_desde_origen wb "N49") ∧
    (V02.actualizarFila wb row)[10]? =
      some (V02.cargar_valor_desde_origen wb "N153") ∧
    (V02.actualizarFila wb row)[12]? =
      some (V02.cargar_valor_desde_origen wb "N161") := by
  obtain ⟨e1, e2, e3, e4, e5⟩ := escribirDestinos_lee ws fila wb
  obtain ⟨a1, a2, a3, a4, a5, a6⟩ := actualizarFila_spec wb row
  refine ⟨?_, e1, e2, e3, e4, e5, ?_, a2, a3, a4, a5, a6⟩
  · simp only [V0.paso, ht0, if_true, hs0, hf]
  · have hno : ¬(r_idx + 1 < V02.FILA_INICIO_DATOS) := by omega
    simp only [V02.paso, if_neg hno, hv, ht2, if_true, hs2, if_neg hc, hf]

/-- Witness for C1 at a concrete sheet: row 6 carries code "A100", the file
system resolves A100.xlsx to a workbook whose cell lookups return the cell
reference as a string. -/
theorem c1_extraccion_correcta_witness :
    V0.paso fsEjemplo "" wsEjemplo 6 =
      some (V0.escribirDestinos wsEjemplo 6 wbEjemplo, RowStatus.copiado) ∧
    V0.escribirDestinos wsEjemplo 6 wbEjemplo 6 6 = cargar_valor wbEjemplo "N21" ∧
    V0.escribirDestinos wsEjemplo 6 wbEjemplo 6 7 = cargar_valor wbEjemplo "N25" ∧
    V0.escribirDestinos wsEjemplo 6 wbEjemplo 6 9 = cargar_valor wbEjemplo "N49" ∧
    V0.escribirDestinos wsEjemplo 6 wbEjemplo 6 11 = cargar_valor wbEjemplo "N153" ∧
    V0.escribirDestinos wsEjemplo 6 wbEjemplo 6 13 = cargar_valor wbEjemplo "N161" ∧
    V02.paso fsEjemplo "" 5 filaEjemplo =
      Except.ok (V02.actualizarFila wbEjemplo filaEjemplo, RowStatus.copiado) ∧
    (V02.actualizarFila wbEjemplo filaEjemplo)[5]? =
      some (V02.cargar_valor_desde_origen wbEjemplo "N21") ∧
    (V02.actualizarFila wbEjemplo filaEjemplo)[6]? =
      some (V02.cargar_valor_desde_origen wbEjemplo "N25") ∧
    (V02.actualizarFila wbEjemplo filaEjemplo)[8]? =
      some (V02.cargar_valor_desde_origen wbEjemplo "N49") ∧
    (V02.actualizarFila wbEjemplo filaEjemplo)[10]? =
      some (V02.cargar_valor_desde_origen wbEjemplo "N153") ∧
    (V02.actualizarFila wbEjemplo filaEjemplo)[12]? =
      some (V02.cargar_valor_desde_origen wbEjemplo "N161") :=
  c1_extraccion_correcta fsEjemplo "" "A100" wbEjemplo wsEjemplo 6 5
    filaEjemplo (Val.str "A100") (by decide) rfl (by decide) (by decide)
    (by decide) (by decide) (by decide) (by decide)

/-- C2: in streaming mode, provided every data row reaches the code column
(as openpyxl's padded read-only rows do), each source row — header,
empty-code, code-with-file, code-without-file and read-error rows alike —
produces exactly one appended output row, in source order: the output has
the same length as the source and the row at each position is obtained from
the source row at that position alone by the per-row step, so no source row
is read twice or dropped. -/
theorem c2_fila_por_fila (fs : FS) (ruta_base : String)
    (rows : List (List Val))
    (hlen : ∀ j (hj : j < rows.length), V02.FILA_INICIO_DATOS ≤ j + 1 →
      V02.COL_CODIGO ≤ rows[j].length) :
    ∃ out, V02.procesar_hoja fs ruta_base rows = Except.ok out ∧
      out.length = rows.length ∧
      ∀ j (h1 : j < rows.length) (h2 : j < out.length),
        ∃ st, V02.paso fs ruta_base j rows[j] = Except.ok (out[j], st) := by
  obtain ⟨out, hout, hlen2, hget⟩ := procesarHojaAux_spec fs ruta_base rows 0
    (by
      intro j hj hge
      exact hlen j hj (by omega))
  refine ⟨out, hout, hlen2, ?_⟩
  intro j h1 h2
  obtain ⟨st, hst⟩ := hget j h1 h2
  exact ⟨st, by simpa using hst⟩

/-- Witness for C2 on a nine-row sheet containing all five row categories
(headers, loadable code, empty code, corrupt file, missing file). -/
theorem c2_fila_por_fila_witness :
    ∃ out, V02.procesar_hoja fsMixto "" hojaEjemplo = Except.ok out ∧
      out.length = hojaEjemplo.length ∧
      ∀ j (h1 : j < hojaEjemplo.length) (h2 : j < out.length),
        ∃ st, V02.paso fsMixto "" j hojaEjemplo[j] = Except.ok (out[j], st) :=
  c2_fila_por_fila fsMixto "" hojaEjemplo (by decide)

/-- C3: the two modes diverge on an empty code cell at or beyond the
data-start row. In the in-place (bounded) mode a falsy code cell stops the
sheet traversal immediately — the loop result is the untouched sheet,
whatever the file system and whatever any later row holds, so no later row
is examined. In streaming mode an empty-code data row is appended unchanged
(status omitido) and the loop continues into the remaining source rows,
ending only when they run out. -/
theorem c3_divergencia_codigo_vacio (fs : FS) (ruta_base : String)
    (ws : V0.Ws) (fila fuel : Nat) (r_idx : Nat) (row : List Val)
    (rest : List (List Val)) (v : Val)
    (h0 : truthy (ws fila V0.COL_CODIGO) = false)
    (hi : V02.FILA_INICIO_DATOS ≤ r_idx + 1)
    (hv : row[V02.COL_CODIGO - 1]? = some v)
    (hvacio : (if truthy v then pyStrip (pyStr v) else "") = "") :
    V0.procesar_hoja fs ruta_base fuel ws fila = ws ∧
    V02.paso fs ruta_base r_idx row = Except.ok (row, RowStatus.omitido) ∧
    V02.procesarHojaAux fs ruta_base r_idx (row :: rest) =
      (match V02.procesarHojaAux fs ruta_base (r_idx + 1) rest with
       | Except.error e => Except.error e
       | Except.ok out => Except.ok (row :: out)) := by
  have hno : ¬(r_idx + 1 < V02.FILA_INICIO_DATOS) := by omega
  have hpaso : V02.paso fs ruta_base r_idx row =
      Except.ok (row, RowStatus.omitido) := by
    simp only [V02.paso, if_neg hno, hv, hvacio, if_pos rfl, if_true]
  refine ⟨procesar_hoja_v0_alto fs ruta_base fuel ws fila h0, hpaso, ?_⟩
  simp only [V02.procesarHojaAux, hpaso]

/-- Witness for C3: an empty master sheet in the in-place mode, and a
streamed empty-code row followed by one further data row that is still
evaluated. -/
theorem c3_divergencia_codigo_vacio_witness :
    V0.procesar_hoja fsVacio "" 3 wsVacia 6 = wsVacia ∧
    V02.paso fsVacio "" 5 filaSinCodigo =
      Except.ok (filaSinCodigo, RowStatus.omitido) ∧
    V02.procesarHojaAux fsVacio "" 5 (filaSinCodigo :: [filaEjemplo]) =
      (match V02.procesarHojaAux fsVacio "" 6 [filaEjemplo] with
       | Except.error e => Except.error e
       | Except.ok out => Except.ok (filaSinCodigo :: out)) :=
  c3_divergencia_codigo_vacio fsVacio "" wsVacia 6 3 5 filaSinCodigo
    [filaEjemplo] Val.none (by decide) (by decide) (by decide) (by decide)

/-- C4: for a data row with a non-empty code whose per-entity file does not
exist, the value-copy modes change nothing: the in-place step returns the
sheet itself (status noEncontrado) and the streaming step returns the source
row itself, so every destination column keeps exactly its input value. The
link mode still writes an external-reference formula naming the resolved
path under C:\presupuestos into every one of the five destination columns;
only its status message records the miss. -/
theorem c4_archivo_inexistente (fs : FS) (ruta_base c : String) (ws : V0.Ws)
    (fila : Nat) (r_idx : Nat) (row : List Val) (v : Val)
    (hc : c ≠ "")
    (habs : fs (joinPath ruta_base (c ++ ".xlsx")) = FileOutcome.absent)
    (ht0 : truthy (ws fila V0.COL_CODIGO) = true)
    (hs0 : pyStrip (pyStr (ws fila V0.COL_CODIGO)) = c)
    (hi : V02.FILA_INICIO_DATOS ≤ r_idx + 1)
    (hv : row[V02.COL_CODIGO - 1]? = some v)
    (ht2 : truthy v = true)
    (hs2 : pyStrip (pyStr v) = c)
    (habs10 : fs (joinPath V10.RUTA_ARCHIVOS_ORIGEN (c ++ ".xlsx")) =
      FileOutcome.absent) :
    V0.paso fs ruta_base ws fila = some (ws, RowStatus.noEncontrado) ∧
    V02.paso fs ruta_base r_idx row = Except.ok (row, RowStatus.noEncontrado) ∧
    V10.paso fs ws fila =
      some (V10.escribirFormulas ws fila (V10.RUTA_ARCHIVOS_ORIGEN ++ osSep)
        (c ++ ".xlsx"), RowStatus.formulaAnadidaSinArchivo) ∧
    V10.escribirFormulas ws fila (V10.RUTA_ARCHIVOS_ORIGEN ++ osSep)
        (c ++ ".xlsx") fila 6 =
      Val.str (V10.formula_enlace (V10.RUTA_ARCHIVOS_ORIGEN ++ osSep)
        (c ++ ".xlsx") "$N$21") ∧
    V10.escribirFormulas ws fila (V10.RUTA_ARCHIVOS_ORIGEN ++ osSep)
        (c ++ ".xlsx") fila 7 =
      Val.str (V10.formula_enlace (V10.RUTA_ARCHIVOS_ORIGEN ++ osSep)
        (c ++ ".xlsx") "$N$25") ∧
    V10.escribirFormulas ws fila (V10.RUTA_ARCHIVOS_ORIGEN ++ osSep)
        (c ++ ".xlsx") fila 9 =
      Val.str (V10.formula_enlace (V10.RUTA_ARCHIVOS_ORIGEN ++ osSep)
        (c ++ ".xlsx") "$N$49") ∧
    V10.escribirFormulas ws fila (V10.RUTA_ARCHIVOS_ORIGEN ++ osSep)
        (c ++ ".xlsx") fila 11 =
      Val.str (V10.formula_enlace (V10.RUTA_ARCHIVOS_ORIGEN ++ osSep)
        (c ++ ".xlsx") "$N$153") ∧
    V10.escribirFormulas ws fila (V10.RUTA_ARCHIVOS_ORIGEN ++ osSep)
        (c ++ ".xlsx") fila 13 =
      Val.str (V10.formula_enlace (V10.RUTA_ARCHIVOS_ORIGEN ++ osSep)
        (c ++ ".xlsx") "$N$161") := by
  have hno : ¬(r_idx + 1 < V02.FILA_INICIO_DATOS) := by omega
  obtain ⟨f1, f2, f3, f4, f5⟩ := escribirFormulas_lee ws fila
    (V10.RUTA_ARCHIVOS_ORIGEN ++ osSep) (c ++ ".xlsx")
  refine ⟨?_, ?_, ?_, f1, f2, f3, f4, f5⟩
  · simp only [V0.paso, ht0, if_true, hs0, habs]
  · simp only [V02.paso, if_neg hno, hv, ht2, if_true, hs2, if_neg hc, habs]
  · have ht0b : truthy (ws fila V10.COL_CODIGO) = true := ht0
    have hs0b : pyStrip (pyStr (ws fila V10.COL_CODIGO)) = c := hs0
    have hpath : V10.path_para_formula V10.RUTA_ARCHIVOS_ORIGEN =
        V10.RUTA_ARCHIVOS_ORIGEN ++ osSep := rfl
    simp only [V10.paso, ht0b, if_true, hs0b, hpath, isfile, habs10]
    rfl

/-- Witness for C4 at row 6 with code "A100" on an empty file system. -/
theorem c4_archivo_inexistente_witness :
    V0.paso fsVacio "" wsEjemplo 6 = some (wsEjemplo, RowStatus.noEncontrado) ∧
    V02.paso fsVacio "" 5 filaEjemplo =
      Except.ok (filaEjemplo, RowStatus.noEncontrado) ∧
    V10.paso fsVacio wsEjemplo 6 =
      some (V10.escribirFormulas wsEjemplo 6 (V10.RUTA_ARCHIVOS_ORIGEN ++ osSep)
        ("A100" ++ ".xlsx"), RowStatus.formulaAnadidaSinArchivo) ∧
    V10.escribirFormulas wsEjemplo 6 (V10.RUTA_ARCHIVOS_ORIGEN ++ osSep)
        ("A100" ++ ".xlsx") 6 6 =
      Val.str (V10.formula_enlace (V10.RUTA_ARCHIVOS_ORIGEN ++ osSep)
        ("A100" ++ ".xlsx") "$N$21") ∧
    V10.escribirFormulas wsEjemplo 6 (V10.RUTA_ARCHIVOS_ORIGEN ++ osSep)
        ("A100" ++ ".xlsx") 6 7 =
      Val.str (V10.formula_enlace (V10.RUTA_ARCHIVOS_ORIGEN ++ osSep)
        ("A100" ++ ".xlsx") "$N$25") ∧
    V10.escribirFormulas wsEjemplo 6 (V10.RUTA_ARCHIVOS_ORIGEN ++ osSep)
        ("A100" ++ ".xlsx") 6 9 =
      Val.str (V10.formula_enlace (V10.RUTA_ARCHIVOS_ORIGEN ++ osSep)
        ("A100" ++ ".xlsx") "$N$49") ∧
    V10.escribirFormulas wsEjemplo 6 (V10.RUTA_ARCHIVOS_ORIGEN ++ osSep)
        ("A100" ++ ".xlsx") 6 11 =
      Val.str (V10.formula_enlace (V10.RUTA_ARCHIVOS_ORIGEN ++ osSep)
        ("A100" ++ ".xlsx") "$N$153") ∧
    V10.escribirFormulas wsEjemplo 6 (V10.RUTA_ARCHIVOS_ORIGEN ++ osSep)
        ("A100" ++ ".xlsx") 6 13 =
      Val.str (V10.formula_enlace (V10.RUTA_ARCHIVOS_ORIGEN ++ osSep)
        ("A100" ++ ".xlsx") "$N$161") :=
  c4_archivo_inexistente fsVacio "" "A100" wsEjemplo 6 5 filaEjemplo
    (Val.str "A100") (by decide) rfl (by decide) (by decide) (by decide)
    (by decide) (by decide) (by decide) rfl

/-- C5: for a data row with a non-empty code whose file exists but fails to
load, the row is classified errorAlLeer with the fault message attached, the
sheet itself (V0) or the source row itself (V02) comes back untouched, and
the traversal continues with the next row in both modes — the fault never
crosses the row boundary. -/
theorem c5_error_de_lectura (fs : FS) (ruta_base c m : String) (ws : V0.Ws)
    (fila fuel : Nat) (r_idx : Nat) (row : List Val) (rest : List (List Val))
    (v : Val)
    (hc : c ≠ "")
    (herr : fs (joinPath ruta_base (c ++ ".xlsx")) = FileOutcome.readError m)
    (ht0 : truthy (ws fila V0.COL_CODIGO) = true)
    (hs0 : pyStrip (pyStr (ws fila V0.COL_CODIGO)) = c)
    (hi : V02.FILA_INICIO_DATOS ≤ r_idx + 1)
    (hv : row[V02.COL_CODIGO - 1]? = some v)
    (ht2 : truthy v = true)
    (hs2 : pyStrip (pyStr v) = c) :
    V0.paso fs ruta_base ws fila = some (ws, RowStatus.errorAlLeer m) ∧
    V0.procesar_hoja fs ruta_base (fuel + 1) ws fila =
      V0.procesar_hoja fs ruta_base fuel ws (fila + 1) ∧
    V02.paso fs ruta_base r_idx row =
      Except.ok (row, RowStatus.errorAlLeer m) ∧
    V02.procesarHojaAux fs ruta_base r_idx (row :: rest) =
      (match V02.procesarHojaAux fs ruta_base (r_idx + 1) rest with
       | Except.error e => Except.error e
       | Except.ok out => Except.ok (row :: out)) := by
  have hno : ¬(r_idx + 1 < V02.FILA_INICIO_DATOS) := by omega
  have hp0 : V0.paso fs ruta_base ws fila =
      some (ws, RowStatus.errorAlLeer m) := by
    simp only [V0.paso, ht0, if_true, hs0, herr]
  have hp2 : V02.paso fs ruta_base r_idx row =
      Except.ok (row, RowStatus.errorAlLeer m) := by
    simp only [V02.paso, if_neg hno, hv, ht2, if_true, hs2, if_neg hc, herr]
  refine ⟨hp0, procesar_hoja_v0_paso fs ruta_base fuel ws fila ws
    (RowStatus.errorAlLeer m) hp0, hp2, ?_⟩
  simp only [V02.procesarHojaAux, hp2]

/-- Witness for C5 at row 6 with code "A100" on a file system where every
file exists but is corrupt. -/
theorem c5_error_de_lectura_witness :
    V0.paso fsLecturaRota "" wsEjemplo 6 =
      some (wsEjemplo, RowStatus.errorAlLeer "archivo corrupto") ∧
    V0.procesar_hoja fsLecturaRota "" 3 wsEjemplo 6 =
      V0.procesar_hoja fsLecturaRota "" 2 wsEjemplo 7 ∧
    V02.paso fsLecturaRota "" 5 filaEjemplo =
      Except.ok (filaEjemplo, RowStatus.errorAlLeer "archivo corrupto") ∧
    V02.procesarHojaAux fsLecturaRota "" 5 (filaEjemplo :: [filaSinCodigo]) =
      (match V02.procesarHojaAux fsLecturaRota "" 6 [filaSinCodigo] with
       | Except.error e => Except.error e
       | Except.ok out => Except.ok (filaEjemplo :: out)) :=
  c5_error_de_lectura fsLecturaRota "" "A100" "archivo corrupto" wsEjemplo
    6 2 5 filaEjemplo [filaSinCodigo] (Val.str "A100") (by decide) rfl
    (by decide) (by decide) (by decide) (by decide) (by decide) (by decide)

/-- C6 counterexample: reading the code column of a short row does fail. At
data position (0-based index 5, row 6) a source row with only two cells makes
the streaming step raise an IndexError — `row_data[COL_CODIGO - 1]` indexes
past the end of the row instead of transparently extending it — so the claim
that such an access never fails is false. -/
theorem c6_contraejemplo :
    V02.paso fsVacio "" 5 [Val.none, Val.none] =
      Except.error "IndexError: list index out of range" := rfl

/-- C6 amended: destination assignment in streaming mode does transparently
pad — updating a row pads it with empty (None) cells up to the destination
column index before assigning, never fails, and lands every destination
value, as the fully padded update of the empty row shows explicitly. But
reading the code column (D = 4) of a data row shorter than four cells is a
plain list index and raises an IndexError that aborts the sheet. -/
theorem c6_relleno_destinos (wb : SrcWb) (fs : FS) (ruta_base : String)
    (r_idx : Nat) (row corta : List Val)
    (hi : V02.FILA_INICIO_DATOS ≤ r_idx + 1)
    (hcorta : corta.length < V02.COL_CODIGO) :
    (V02.actualizarFila wb row).length = max row.length 13 ∧
    (V02.actualizarFila wb row)[5]? =
      some (V02.cargar_valor_desde_origen wb "N21") ∧
    (V02.actualizarFila wb row)[12]? =
      some (V02.cargar_valor_desde_origen wb "N161") ∧
    V02.actualizarFila wb [] =
      [Val.none, Val.none, Val.none, Val.none, Val.none,
       V02.cargar_valor_desde_origen wb "N21",
       V02.cargar_valor_desde_origen wb "N25", Val.none,
       V02.cargar_valor_desde_origen wb "N49", Val.none,
       V02.cargar_valor_desde_origen wb "N153", Val.none,
       V02.cargar_valor_desde_origen wb "N161"] ∧
    V02.paso fs ruta_base r_idx corta =
      Except.error "IndexError: list index out of range" := by
  obtain ⟨a1, a2, _, _, _, a6⟩ := actualizarFila_spec wb row
  have hno : ¬(r_idx + 1 < V02.FILA_INICIO_DATOS) := by omega
  have hnone : corta[V02.COL_CODIGO - 1]? = Option.none :=
    List.getElem?_eq_none (by
      simp only [V02.COL_CODIGO] at hcorta ⊢
      omega)
  have h6 : column_index_from_string "F" = 6 := rfl
  have h7 : column_index_from_string "G" = 7 := rfl
  have h9 : column_index_from_string "I" = 9 := rfl
  have h11 : column_index_from_string "K" = 11 := rfl
  have h13 : column_index_from_string "M" = 13 := rfl
  refine ⟨a1, a2, a6, ?_, ?_⟩
  · simp [V02.actualizarFila, V02.COL_INDICES_DESTINO, V02.COLUMNAS_DESTINO,
      V02.asignarConRelleno, List.replicate_succ, h6, h7, h9, h11, h13]
  · simp only [V02.paso, if_neg hno, hnone]

/-- Witness for the amended C6: a one-cell destination row gets padded to
thirteen cells, and a two-cell data row raises. -/
theorem c6_relleno_destinos_witness :
    (V02.actualizarFila wbEjemplo [Val.int 7]).length = max 1 13 ∧
    (V02.actualizarFila wbEjemplo [Val.int 7])[5]? =
      some (V02.cargar_valor_desde_origen wbEjemplo "N21") ∧
    (V02.actualizarFila wbEjemplo [Val.int 7])[12]? =
      some (V02.cargar_valor_desde_origen wbEjemplo "N161") ∧
    V02.actualizarFila wbEjemplo [] =
      [Val.none, Val.none, Val.none, Val.none, Val.none,
       V02.cargar_valor_desde_origen wbEjemplo "N21",
       V02.cargar_valor_desde_origen wbEjemplo "N25", Val.none,
       V02.cargar_valor_desde_origen wbEjemplo "N49", Val.none,
       V02.cargar_valor_desde_origen wbEjemplo "N153", Val.none,
       V02.cargar_valor_desde_origen wbEjemplo "N161"] ∧
    V02.paso fsVacio "" 7 [Val.none, Val.none] =
      Except.error "IndexError: list index out of range" :=
  c6_relleno_destinos wbEjemplo fsVacio "" 7 [Val.int 7] [Val.none, Val.none]
    (by decide) (by decide)

/-- C7: in link mode, for every row with a truthy code (trimmed form `c`)
the value written into each of the five destination columns is exactly the
formula built from the trailing-separator directory C:\presupuestos\, the
file name `c`.xlsx, the fixed sheet name Hoja1 and the configured source
reference — and every one of the five configured references is anchored in
absolute form on both row and column ($N$21, $N$25, $N$49, $N$153, $N$161).
The status only depends on whether the file exists; the written formulas do
not. -/
theorem c7_formulas_absolutas (fs : FS) (c : String) (ws : V0.Ws) (fila : Nat)
    (ht : truthy (ws fila V10.COL_CODIGO) = true)
    (hs : pyStrip (pyStr (ws fila V10.COL_CODIGO)) = c) :
    V10.paso fs ws fila =
      some (V10.escribirFormulas ws fila (V10.RUTA_ARCHIVOS_ORIGEN ++ osSep)
          (c ++ ".xlsx"),
        if isfile fs (joinPath V10.RUTA_ARCHIVOS_ORIGEN (c ++ ".xlsx"))
        then RowStatus.formulaAnadida
        else RowStatus.formulaAnadidaSinArchivo) ∧
    V10.path_para_formula V10.RUTA_ARCHIVOS_ORIGEN =
      V10.RUTA_ARCHIVOS_ORIGEN ++ osSep ∧
    V10.terminaCon (V10.RUTA_ARCHIVOS_ORIGEN ++ osSep) osSep = true ∧
    (V10.COLUMNAS_DESTINO.all fun par => esRefAbsoluta par.2) = true ∧
    V10.escribirFormulas ws fila (V10.RUTA_ARCHIVOS_ORIGEN ++ osSep)
        (c ++ ".xlsx") fila 6 =
      Val.str (V10.formula_enlace (V10.RUTA_ARCHIVOS_ORIGEN ++ osSep)
        (c ++ ".xlsx") "$N$21") ∧
    V10.escribirFormulas ws fila (V10.RUTA_ARCHIVOS_ORIGEN ++ osSep)
        (c ++ ".xlsx") fila 7 =
      Val.str (V10.formula_enlace (V10.RUTA_ARCHIVOS_ORIGEN ++ osSep)
        (c ++ ".xlsx") "$N$25") ∧
    V10.escribirFormulas ws fila (V10.RUTA_ARCHIVOS_ORIGEN ++ osSep)
        (c ++ ".xlsx") fila 9 =
      Val.str (V10.formula_enlace (V10.RUTA_ARCHIVOS_ORIGEN ++ osSep)
        (c ++ ".xlsx") "$N$49") ∧
    V10.escribirFormulas ws fila (V10.RUTA_ARCHIVOS_ORIGEN ++ osSep)
        (c ++ ".xlsx") fila 11 =
      Val.str (V10.formula_enlace (V10.RUTA_ARCHIVOS_ORIGEN ++ osSep)
        (c ++ ".xlsx") "$N$153") ∧
    V10.escribirFormulas ws fila (V10.RUTA_ARCHIVOS_ORIGEN ++ osSep)
        (c ++ ".xlsx") fila 13 =
      Val.str (V10.formula_enlace (V10.RUTA_ARCHIVOS_ORIGEN ++ osSep)
        (c ++ ".xlsx") "$N$161") := by
  obtain ⟨f1, f2, f3, f4, f5⟩ := escribirFormulas_lee ws fila
    (V10.RUTA_ARCHIVOS_ORIGEN ++ osSep) (c ++ ".xlsx")
  refine ⟨?_, rfl, by decide, by decide, f1, f2, f3, f4, f5⟩
  have hpath : V10.path_para_formula V10.RUTA_ARCHIVOS_ORIGEN =
      V10.RUTA_ARCHIVOS_ORIGEN ++ osSep := rfl
  simp only [V10.paso, ht, if_true, hs, hpath]

/-- Witness for C7 at row 6 with code "A100" (file absent, so the status
records the miss while the absolute formulas are written all the same). -/
theorem c7_formulas_absolutas_witness :
    V10.paso fsVacio wsEjemplo 6 =
      some (V10.escribirFormulas wsEjemplo 6 (V10.RUTA_ARCHIVOS_ORIGEN ++ osSep)
          ("A100" ++ ".xlsx"),
        if isfile fsVacio (joinPath V10.RUTA_ARCHIVOS_ORIGEN ("A100" ++ ".xlsx"))
        then RowStatus.formulaAnadida
        else RowStatus.formulaAnadidaSinArchivo) ∧
    V10.path_para_formula V10.RUTA_ARCHIVOS_ORIGEN =
      V10.RUTA_ARCHIVOS_ORIGEN ++ osSep ∧
    V10.terminaCon (V10.RUTA_ARCHIVOS_ORIGEN ++ osSep) osSep = true ∧
    (V10.COLUMNAS_DESTINO.all fun par => esRefAbsoluta par.2) = true ∧
    V10.escribirFormulas wsEjemplo 6 (V10.RUTA_ARCHIVOS_ORIGEN ++ osSep)
        ("A100" ++ ".xlsx") 6 6 =
      Val.str (V10.formula_enlace (V10.RUTA_ARCHIVOS_ORIGEN ++ osSep)
        ("A100" ++ ".xlsx") "$N$21") ∧
    V10.escribirFormulas wsEjemplo 6 (V10.RUTA_ARCHIVOS_ORIGEN ++ osSep)
        ("A100" ++ ".xlsx") 6 7 =
      Val.str (V10.formula_enlace (V10.RUTA_ARCHIVOS_ORIGEN ++ osSep)
        ("A100" ++ ".xlsx") "$N$25") ∧
    V10.escribirFormulas wsEjemplo 6 (V10.RUTA_ARCHIVOS_ORIGEN ++ osSep)
        ("A100" ++ ".xlsx") 6 9 =
      Val.str (V10.formula_enlace (V10.RUTA_ARCHIVOS_ORIGEN ++ osSep)
        ("A100" ++ ".xlsx") "$N$49") ∧
    V10.escribirFormulas wsEjemplo 6 (V10.RUTA_ARCHIVOS_ORIGEN ++ osSep)
        ("A100" ++ ".xlsx") 6 11 =
      Val.str (V10.formula_enlace (V10.RUTA_ARCHIVOS_ORIGEN ++ osSep)
        ("A100" ++ ".xlsx") "$N$153") ∧
    V10.escribirFormulas wsEjemplo 6 (V10.RUTA_ARCHIVOS_ORIGEN ++ osSep)
        ("A100" ++ ".xlsx") 6 13 =
      Val.str (V10.formula_enlace (V10.RUTA_ARCHIVOS_ORIGEN ++ osSep)
        ("A100" ++ ".xlsx") "$N$161") :=
  c7_formulas_absolutas fsVacio "A100" wsEjemplo 6 (by decide) (by decide)

/-- C8 counterexample: the exit code is not non-zero on every fatal path.
With the master file missing — a fatal path — the in-place scripts exit 0
(their main simply returns), the streaming script also exits 0, and with an
unwritable output file the in-place script still exits 0. -/
theorem c8_contraejemplo :
    V0.mainExitCode false true true = 0 ∧
    V10.mainExitCode false true true = 0 ∧
    V02.mainExitCode false (Except.ok []) fsVacio "" true = 0 ∧
    V0.mainExitCode true true false = 0 ∧
    V10.mainExitCode true false true = 0 := by
  decide

/-- C8 amended: only the streaming script signals failure through its exit
code, and only partially. The in-place scripts exit 0 on every path —
missing master, unreadable master and failed save included. The streaming
script exits 0 when the master is missing, 1 when the master fails to load,
1 when processing raises, 1 when the save fails, and 0 on success. -/
theorem c8_codigos_de_salida (a b g : Bool) (msg : String) (fs : FS)
    (ruta_base : String) (m : V02.MasterWb)
    (carga : Except String V02.MasterWb) :
    V0.mainExitCode a b g = 0 ∧
    V10.mainExitCode a b g = 0 ∧
    V02.mainExitCode false carga fs ruta_base g = 0 ∧
    V02.mainExitCode true (Except.error msg) fs ruta_base g = 1 ∧
    (match V02.procesarObjetivos fs ruta_base m HOJAS_OBJETIVO with
     | Except.error _ => V02.mainExitCode true (Except.ok m) fs ruta_base g = 1
     | Except.ok _ =>
       V02.mainExitCode true (Except.ok m) fs ruta_base g =
         if g then 0 else 1) := by
  refine ⟨?_, ?_, rfl, rfl, ?_⟩
  · cases a <;> cases b <;> cases g <;> rfl
  · cases a <;> cases b <;> cases g <;> rfl
  · cases hp : V02.procesarObjetivos fs ruta_base m HOJAS_OBJETIVO with
    | error e => simp only [V02.mainExitCode, if_true, hp]
    | ok outs => simp only [V02.mainExitCode, if_true, hp]

/-- C9: in the in-place modes the emptiness test on the code cell is Python
falsiness of the raw value, so a cell holding 0, 0.0, False or the empty
string terminates the sheet traversal exactly like an absent (None) cell:
the loop returns the sheet untouched, and since the result is the same for
every file system, no per-entity filename is ever built or looked up from
such a value. -/
theorem c9_celdas_falsas (fs fs2 : FS) (ruta_base : String) (ws : V0.Ws)
    (fila fuel : Nat) (v : Val)
    (hmem : v = Val.int 0 ∨ v = Val.float 0 ∨ v = Val.bool false ∨
      v = Val.str "" ∨ v = Val.none)
    (hcell : ws fila V0.COL_CODIGO = v) :
    truthy v = false ∧
    V0.procesar_hoja fs ruta_base fuel ws fila = ws ∧
    V10.procesar_hoja fs2 fuel ws fila = ws := by
  have hfalse : truthy v = false := by
    rcases hmem with h | h | h | h | h <;> subst h <;> rfl
  have hws : truthy (ws fila V0.COL_CODIGO) = false := by
    rw [hcell, hfalse]
  exact ⟨hfalse, procesar_hoja_v0_alto fs ruta_base fuel ws fila hws,
    procesar_hoja_v10_alto fs2 fuel ws fila hws⟩

/-- Witness for C9 with a numeric 0 code cell at row 6. -/
theorem c9_celdas_falsas_witness :
    truthy (Val.int 0) = false ∧
    V0.procesar_hoja fsEjemplo ""
      3 (fun fila col => if fila = 6 ∧ col = 4 then Val.int 0 else Val.none)
      6 = (fun fila col => if fila = 6 ∧ col = 4 then Val.int 0 else Val.none) ∧
    V10.procesar_hoja fsEjemplo
      3 (fun fila col => if fila = 6 ∧ col = 4 then Val.int 0 else Val.none)
      6 = (fun fila col => if fila = 6 ∧ col = 4 then Val.int 0 else Val.none) :=
  c9_celdas_falsas fsEjemplo fsEjemplo ""
    (fun fila col => if fila = 6 ∧ col = 4 then Val.int 0 else Val.none)
    6 3 (Val.int 0) (Or.inl rfl) (by decide)

/-- C10: the two modes disagree on a whitespace-only code cell (non-empty
string that trims to empty). The in-place mode tests falsiness before
trimming, so the cell counts as present: the step looks up exactly the file
".xlsx" in the base directory — its outcome is whatever the file system says
at that path — and the traversal continues to the next row. The streaming
mode trims before testing, so for every file system the row is copied
through unchanged (status omitido) with no lookup at all. -/
theorem c10_codigo_de_espacios (fs : FS) (ruta_base s : String) (ws : V0.Ws)
    (fila fuel r_idx : Nat) (row : List Val)
    (hs : s ≠ "")
    (ht : pyStrip s = "")
    (hcell : ws fila V0.COL_CODIGO = Val.str s)
    (hi : V02.FILA_INICIO_DATOS ≤ r_idx + 1)
    (hv : row[V02.COL_CODIGO - 1]? = some (Val.str s)) :
    truthy (Val.str s) = true ∧
    V0.paso fs ruta_base ws fila =
      (match fs (joinPath ruta_base ".xlsx") with
       | FileOutcome.absent => some (ws, RowStatus.noEncontrado)
       | FileOutcome.readError m => some (ws, RowStatus.errorAlLeer m)
       | FileOutcome.ok wb =>
         some (V0.escribirDestinos ws fila wb, RowStatus.copiado)) ∧
    (fs (joinPath ruta_base ".xlsx") = FileOutcome.absent →
      V0.procesar_hoja fs ruta_base (fuel + 1) ws fila =
        V0.procesar_hoja fs ruta_base fuel ws (fila + 1)) ∧
    V02.paso fs ruta_base r_idx row = Except.ok (row, RowStatus.omitido) := by
  have htruthy : truthy (Val.str s) = true := by
    simp only [truthy, decide_eq_true_eq]
    exact hs
  have hws : truthy (ws fila V0.COL_CODIGO) = true := by
    rw [hcell, htruthy]
  have hstrip : pyStrip (pyStr (ws fila V0.COL_CODIGO)) = "" := by
    rw [hcell]
    exact ht
  have hno : ¬(r_idx + 1 < V02.FILA_INICIO_DATOS) := by omega
  have hpaso : V0.paso fs ruta_base ws fila =
      (match fs (joinPath ruta_base ".xlsx") with
       | FileOutcome.absent => some (ws, RowStatus.noEncontrado)
       | FileOutcome.readError m => some (ws, RowStatus.errorAlLeer m)
       | FileOutcome.ok wb =>
         some (V0.escribirDestinos ws fila wb, RowStatus.copiado)) := by
    simp only [V0.paso, hws, if_true, hstrip]
    rfl
  refine ⟨htruthy, hpaso, ?_, ?_⟩
  · intro habs
    refine procesar_hoja_v0_paso fs ruta_base fuel ws fila ws
      RowStatus.noEncontrado ?_
    rw [hpaso, habs]
  · have hvacio : (if truthy (Val.str s) then pyStrip (pyStr (Val.str s))
        else "") = "" := by
      rw [htruthy, if_pos rfl]
      exact ht
    simp only [V02.paso, if_neg hno, hv, hvacio, if_pos rfl, if_true]

/-- Witness for C10 with the code cell "   " (three spaces) at row 6 on a
file system with no files (so the in-place lookup of ".xlsx" misses). -/
theorem c10_codigo_de_espacios_witness :
    truthy (Val.str "   ") = true ∧
    V0.paso fsVacio "" wsEspacios 6 =
      (match fsVacio (joinPath "" ".xlsx") with
       | FileOutcome.absent => some (wsEspacios, RowStatus.noEncontrado)
       | FileOutcome.readError m => some (wsEspacios, RowStatus.errorAlLeer m)
       | FileOutcome.ok wb =>
         some (V0.escribirDestinos wsEspacios 6 wb, RowStatus.copiado)) ∧
    (fsVacio (joinPath "" ".xlsx") = FileOutcome.absent →
      V0.procesar_hoja fsVacio "" 3 wsEspacios 6 =
        V0.procesar_hoja fsVacio "" 2 wsEspacios 7) ∧
    V02.paso fsVacio "" 5 filaEspacios =
      Except.ok (filaEspacios, RowStatus.omitido) :=
  c10_codigo_de_espacios fsVacio "" "   " wsEspacios 6 2 5 filaEspacios
    (by decide) (by decide) (by decide) (by decide) (by decide)

end AutoConsolidado
